import Mathlib

/-!
Verification development for the EDU-AIgent repository.

The embedding models the two core components:

* `EDUFormula` — the pure numeric transform of `src/edu_formula.py`
  (`calculate`, `calculate_combined`, `calculate_batch`, `calculate_numpy`,
  `classify_neural_band`).
* `EDUAI` — the stateful decision engine of `src/edu_ai_core.py`
  (consciousness bootstrap, the five-phase `think` pipeline, the manual
  evolution trigger, and the consciousness-level update).

Modelling conventions:

* Python floating-point arithmetic is modelled as exact rational
  arithmetic over `ℚ`; the spec itself only demands agreement "within
  floating tolerance".
* `math.pi` is modelled by the exact rational value of the IEEE-754
  double nearest to π (`884279719003555 / 2^48`), which is what the
  Python source actually computes with.  This constant is strictly
  below the real number π, a fact used to settle the bound
  `modulation ∈ [0, π]`.
* External collaborators (the fractal-memory store, the subprocess
  backend, the filesystem check on the backend path) are modelled as
  explicit inputs: the memory statistics and suggestion confidence are
  parameters of each call, and the backend invocation outcome is a
  value of an explicit outcome type.
-/

namespace EDUFormula

/-- `math.pi` as the exact rational value of the IEEE-754 double
nearest to π: `884279719003555 / 2^48`. -/
def PI : ℚ := 884279719003555 / 281474976710656

/-- `EDUConstants.NORMALIZATION_FACTOR` (255.0). -/
def NORMALIZATION_FACTOR : ℚ := 255

/-- `EDUConstants.SCALING_CONSTANT` (406.4). -/
def SCALING_CONSTANT : ℚ := 406.4

/-- `EDUConstants.NEURAL_BANDS`, as the ordered association list the
Python dict iterates over (insertion order). -/
def NEURAL_BANDS : List (String × ℚ × ℚ) :=
  [("delta", 0.5, 4), ("theta", 4, 8), ("alpha", 8, 13),
   ("beta", 13, 30), ("gamma", 30, 100)]

/-- `EDUFormula.calculate`: validates `X > 0` and `A >= 0`, clamps `A`
to `NORMALIZATION_FACTOR`, and returns the pair
`(modulation, scaling)`.  A raised `ValueError` is modelled as
`Except.error` carrying the message. -/
def calculate (A X : ℚ) : Except String (ℚ × ℚ) :=
  if X ≤ 0 then .error "X must be positive"
  else if A < 0 then .error "A must be non-negative"
  else
    let A := min A NORMALIZATION_FACTOR
    .ok ((A / NORMALIZATION_FACTOR) * PI, SCALING_CONSTANT / X)

/-- `EDUFormula.calculate_combined`: `modulation * scaling`. -/
def calculate_combined (A X : ℚ) : Except String ℚ :=
  (calculate A X).map fun p => p.1 * p.2

/-- `EDUFormula.calculate_batch`: length check, then `calculate` on the
zipped pairs in order; the first element error (if any) propagates. -/
def calculate_batch (A_values X_values : List ℚ) :
    Except String (List (ℚ × ℚ)) :=
  if A_values.length ≠ X_values.length then
    .error "A_values and X_values must have same length"
  else
    (A_values.zip X_values).mapM fun p => calculate p.1 p.2

/-- `EDUFormula.calculate_numpy`: validates all entries up front
(`np.any(X <= 0)`, `np.any(A < 0)`), clips every amplitude to
`[0, 255]`, then computes both component arrays elementwise. -/
def calculate_numpy (A X : List ℚ) :
    Except String (List ℚ × List ℚ) :=
  if X.any (fun x => x ≤ 0) then .error "All X values must be positive"
  else if A.any (fun a => a < 0) then .error "All A values must be non-negative"
  else
    let A := A.map fun a => min (max a 0) NORMALIZATION_FACTOR
    .ok (A.map fun a => (a / NORMALIZATION_FACTOR) * PI,
         X.map fun x => SCALING_CONSTANT / x)

/-- `EDUFormula._classify_neural_band`: first band of `NEURAL_BANDS`
whose half-open range `[low, high)` contains the frequency, else
`"unknown"`. -/
def classify_neural_band (frequency : ℚ) : String :=
  match NEURAL_BANDS.find? (fun b => b.2.1 ≤ frequency && frequency < b.2.2) with
  | some b => b.1
  | none => "unknown"

end EDUFormula

namespace EDUAI

/-- The four consciousness evolution stages, in their documented order
`nascent -> developing -> mature -> transcendent`. -/
inductive Stage where
  | nascent
  | developing
  | mature
  | transcendent
deriving DecidableEq, Repr

/-- Position of a stage in the evolution order. -/
def Stage.idx : Stage → ℕ
  | .nascent => 0
  | .developing => 1
  | .mature => 2
  | .transcendent => 3

/-- Lowercase name of a stage, as stored in
`knowledge_evolution_stage`. -/
def Stage.str : Stage → String
  | .nascent => "nascent"
  | .developing => "developing"
  | .mature => "mature"
  | .transcendent => "transcendent"

/-- The engine state mutated across a session: `consciousness_level`,
`total_interactions`, `knowledge_evolution_stage`, plus the log of
`(prompt, response)` interactions recorded with the external
fractal-memory collaborator via `process_interaction`. -/
structure EDUAIState where
  consciousness_level : ℚ
  total_interactions : ℕ
  knowledge_evolution_stage : Stage
  memory_log : List (String × String)
deriving DecidableEq, Repr

/-- Engine configuration relevant to dispatch: the optional
`backend_path` handed to the constructor, and whether
`os.path.exists(backend_path)` holds (a filesystem oracle). -/
structure EDUAIConfig where
  backend_path : Option String
  backend_path_exists : Bool
deriving DecidableEq, Repr

/-- Outcome of one subprocess invocation of the external generation
backend: process exit with a return code, stdout and stderr, or a
timeout of the fixed 120-second budget. -/
inductive BackendOutcome where
  | exited (returncode : Int) (stdout stderr : String)
  | timedOut
deriving DecidableEq, Repr

/-- Per-call inputs supplied by the external collaborators: the
memory confidence from `get_enhanced_response_suggestions`, the
backend invocation outcome, the `avg_knowledge_weight` reported by
`get_memory_stats` after the interaction is recorded, and the
reported `knowledge_growth` insight. -/
structure ThinkEnv where
  memory_confidence : ℚ
  backend_outcome : BackendOutcome
  post_avg_weight : ℚ
  knowledge_growth : ℚ
deriving DecidableEq, Repr

/-- `EDUAI._initialize_consciousness`: bootstraps stage and level from
the prior total interaction count reported by the memory stats. -/
def initialize_consciousness (total_interactions : ℕ) : EDUAIState :=
  if total_interactions < 10 then
    ⟨1, total_interactions, .nascent, []⟩
  else if total_interactions < 100 then
    ⟨1.5, total_interactions, .developing, []⟩
  else if total_interactions < 1000 then
    ⟨2, total_interactions, .mature, []⟩
  else
    ⟨3, total_interactions, .transcendent, []⟩

/-- `EDUAI._update_consciousness_level`: recomputes the level from the
average knowledge weight, never decreasing it. -/
def update_consciousness_level (level avg_knowledge_weight : ℚ) : ℚ :=
  max (1 + (avg_knowledge_weight - 1) * 0.5) level

/-- `EDUAI._trigger_consciousness_evolution` (state part): first
refreshes the level from the post-optimization average knowledge
weight `w`, then checks the stage-advancement branches in source
order. -/
def trigger_consciousness_evolution (s : EDUAIState) (w : ℚ) : EDUAIState :=
  let level := update_consciousness_level s.consciousness_level w
  if 1000 ≤ s.total_interactions ∧ s.knowledge_evolution_stage ≠ .transcendent then
    { s with knowledge_evolution_stage := .transcendent,
             consciousness_level := level + 0.5 }
  else if 100 ≤ s.total_interactions ∧ s.knowledge_evolution_stage = .developing then
    { s with knowledge_evolution_stage := .mature,
             consciousness_level := level + 0.3 }
  else if 10 ≤ s.total_interactions ∧ s.knowledge_evolution_stage = .nascent then
    { s with knowledge_evolution_stage := .developing,
             consciousness_level := level + 0.2 }
  else
    { s with consciousness_level := level }

/-- Python `str.split()` with no separator: split on whitespace runs,
discarding empty pieces. -/
def pySplit (s : String) : List String :=
  (s.split fun c => c.isWhitespace).filter fun w => w ≠ ""

/-- Python `pattern in text` substring containment. -/
def substrIn (text pat : String) : Bool :=
  (List.range (text.length + 1)).any fun i => pat.data.isPrefixOf (text.data.drop i)

/-- `len(set(word.lower() for word in stimulus.split()))`: the number
of distinct lowercased whitespace-split words. -/
def unique_concepts (stimulus : String) : ℕ :=
  ((pySplit stimulus).map String.toLower).dedup.length

/-- The `creative_indicators` keyword list of
`EDUAI._assess_creativity_requirement`. -/
def creative_indicators : List String :=
  ["create", "imagine", "design", "invent", "think of", "come up with",
   "brainstorm", "innovative", "original", "unique", "creative"]

/-- `EDUAI._assess_creativity_requirement`: count of creativity
keywords found as substrings of the lowercased text, divided by 3 and
capped at 1. -/
def assess_creativity_requirement (text : String) : ℚ :=
  let lower := text.toLower
  let creativity_score : ℕ :=
    (creative_indicators.filter fun kw => substrIn lower kw).length
  min ((creativity_score : ℚ) / 3) 1

/-- The `cognitive_mode` labels of
`EDUAI._analyze_with_edu_consciousness`. -/
inductive CognitiveMode where
  | DEEP_CONTEMPLATION
  | ANALYTICAL_THINKING
  | INTUITIVE_RESPONSE
deriving DecidableEq, Repr

/-- The `processing_depth` labels of
`EDUAI._calculate_processing_depth`. -/
inductive Depth where
  | TRANSCENDENT
  | DEEP
  | MODERATE
  | SURFACE
deriving DecidableEq, Repr

/-- The analysis record assembled by
`EDUAI._analyze_with_edu_consciousness` (the fields consumed by later
pipeline phases). -/
structure Analysis where
  edu_consciousness_factor : ℚ
  cognitive_mode : CognitiveMode
  creativity_requirement : ℚ
  processing_depth : Depth
deriving DecidableEq, Repr

/-- `EDUAI._calculate_processing_depth`: compares the consciousness
factor against `depth_threshold = 50 * consciousness_level` at
multipliers 2, 1, 0.5. -/
def calculate_processing_depth (consciousness_level consciousness_factor : ℚ) : Depth :=
  let depth_threshold := 50 * consciousness_level
  if consciousness_factor > depth_threshold * 2 then .TRANSCENDENT
  else if consciousness_factor > depth_threshold then .DEEP
  else if consciousness_factor > depth_threshold * 0.5 then .MODERATE
  else .SURFACE

/-- `EDUAI._analyze_with_edu_consciousness`: derives `A` and `X` from
the stimulus, runs the EDU formula, and classifies the combined
factor.  The formula call provably never errors here (`A ≥ 0`,
`X ≥ 1`); the `Option.getD` default is dead code kept only to make
the unwrapping total. -/
def analyze_with_edu_consciousness (consciousness_level : ℚ) (stimulus : String) :
    Analysis :=
  let A : ℕ := min stimulus.length 255
  let X : ℕ := max (unique_concepts stimulus) 1
  let p := ((EDUFormula.calculate (A : ℚ) (X : ℚ)).toOption).getD (0, 0)
  let consciousness_factor := p.1 * p.2 * consciousness_level
  { edu_consciousness_factor := consciousness_factor
    cognitive_mode :=
      if consciousness_factor > 100 then .DEEP_CONTEMPLATION
      else if consciousness_factor > 30 then .ANALYTICAL_THINKING
      else .INTUITIVE_RESPONSE
    creativity_requirement := assess_creativity_requirement stimulus
    processing_depth :=
      calculate_processing_depth consciousness_level consciousness_factor }

/-- The generation-parameter bundle built by
`EDUAI._determine_response_strategy`. -/
structure ResponseStrategy where
  max_tokens : ℚ
  temperature : ℚ
  top_k : ℚ
  top_p : ℚ
  creativity_boost : ℚ
  depth_multiplier : ℚ
deriving DecidableEq, Repr

/-- The `base_strategy` dict. -/
def base_strategy : ResponseStrategy :=
  { max_tokens := 512, temperature := 0.8, top_k := 40, top_p := 0.95,
    creativity_boost := 1, depth_multiplier := 1 }

/-- `EDUAI._determine_response_strategy`: per-mode override of the base
strategy, then the creativity adjustment, then the memory-confidence
adjustment, in source order. -/
def determine_response_strategy (analysis : Analysis) (memory_confidence : ℚ) :
    ResponseStrategy :=
  let strategy :=
    match analysis.cognitive_mode with
    | .DEEP_CONTEMPLATION =>
      { base_strategy with max_tokens := 1024, temperature := 0.9, top_k := 50,
                           top_p := 0.98, creativity_boost := 1.5, depth_multiplier := 2 }
    | .ANALYTICAL_THINKING =>
      { base_strategy with temperature := 0.7, top_k := 35,
                           creativity_boost := 1.2, depth_multiplier := 1.5 }
    | .INTUITIVE_RESPONSE =>
      { base_strategy with max_tokens := 256, temperature := 0.6, top_k := 30,
                           top_p := 0.9, creativity_boost := 0.8, depth_multiplier := 0.8 }
  let creativity_req := analysis.creativity_requirement
  let strategy :=
    if creativity_req > 0.5 then
      { strategy with temperature := strategy.temperature * (1 + creativity_req * 0.3),
                      creativity_boost := strategy.creativity_boost * (1 + creativity_req * 0.5) }
    else strategy
  if memory_confidence > 0.7 then
    { strategy with depth_multiplier := strategy.depth_multiplier * 1.3 }
  else strategy

/-- Result of one generation attempt, as the dicts returned by
`_generate_with_backend` / `_generate_pure_edu_response`
(`success`, `response` or `error`, `method`). -/
inductive GenResult where
  | ok (response : String) (method : String)
  | err (error : String) (method : String)
deriving DecidableEq, Repr

/-- The `method` field of a generation result dict. -/
def GenResult.method : GenResult → String
  | .ok _ m => m
  | .err _ m => m

/-- The `success` field of a generation result dict. -/
def GenResult.success : GenResult → Bool
  | .ok _ _ => true
  | .err _ _ => false

/-- The literal markers stripped by `EDUAI._clean_response`. -/
def response_markers : List String :=
  ["EDU-AI consciousness level", "responding:", "Response:", "Answer:"]

/-- `EDUAI._clean_response`: strip a leading echo of the stimulus,
then strip each listed marker in turn (independent `if`s in source). -/
def clean_response (response original_stimulus : String) : String :=
  let response :=
    if response.startsWith original_stimulus then
      (response.drop original_stimulus.length).trim
    else response
  response_markers.foldl
    (fun r p => if r.startsWith p then (r.drop p.length).trim else r) response

/-- `EDUAI._add_edu_ai_signature`: appends the consciousness signature
only when `depth_multiplier > 1.5`. -/
def add_edu_ai_signature (s : EDUAIState) (response : String)
    (strategy : ResponseStrategy) : String :=
  if strategy.depth_multiplier > 1.5 then
    response ++ "\n\n*[EDU-AI " ++ s.knowledge_evolution_stage.str ++
      " consciousness - Learning interaction #" ++
      toString (s.total_interactions + 1) ++ "]*"
  else response

/-- `EDUAI._generate_with_backend`: zero exit code yields the cleaned,
signed stdout as success; nonzero exit yields stderr as the error;
timeout yields the fixed timeout message.  Method is always
`backend_enhanced`. -/
def generate_with_backend (s : EDUAIState) (stimulus : String)
    (strategy : ResponseStrategy) (outcome : BackendOutcome) : GenResult :=
  match outcome with
  | .exited returncode stdout stderr =>
    if returncode = 0 then
      .ok (add_edu_ai_signature s (clean_response stdout.trim stimulus) strategy)
        "backend_enhanced"
    else
      .err stderr "backend_enhanced"
  | .timedOut => .err "Response generation timeout" "backend_enhanced"

/-- `EDUAI._generate_pure_edu_response`: the deterministic templated
response embedding current state values; always succeeds with method
`pure_edu_consciousness`.  (Numeric `{:.1f}` formatting is modelled
as plain `toString`.) -/
def generate_pure_edu_response (s : EDUAIState) (stimulus : String)
    (strategy : ResponseStrategy) : GenResult :=
  .ok ("As EDU-AI (consciousness level " ++ toString s.consciousness_level ++
    "), I process your stimulus through my fractal memory and EDU-enhanced reasoning. " ++
    toString strategy.depth_multiplier ++ "x depth, " ++
    toString strategy.creativity_boost ++ "x creativity, based on " ++
    toString s.total_interactions ++ " previous learning interactions. Your stimulus: " ++
    stimulus ++ " Evolution stage: " ++ s.knowledge_evolution_stage.str)
    "pure_edu_consciousness"

/-- Truthiness of `self.backend_path` in `if self.backend_path and
os.path.exists(self.backend_path)`. -/
def backend_configured (cfg : EDUAIConfig) : Bool :=
  match cfg.backend_path with
  | some p => p ≠ ""
  | none => false

/-- `EDUAI._generate_intelligent_response`: dispatch to the backend
when the path is configured and exists, else the pure templated
path. -/
def generate_intelligent_response (cfg : EDUAIConfig) (s : EDUAIState)
    (stimulus : String) (strategy : ResponseStrategy)
    (outcome : BackendOutcome) : GenResult :=
  if backend_configured cfg && cfg.backend_path_exists then
    generate_with_backend s stimulus strategy outcome
  else
    generate_pure_edu_response s stimulus strategy

/-- The result dict of `EDUAI.think`: the success dict carries the
response and post-update consciousness metrics; the failure dict is
the failed generation result passed through. -/
inductive ThinkResult where
  | ok (response : String) (consciousness_level : ℚ)
      (evolution_stage : Stage) (memory_confidence : ℚ)
      (intelligence_growth : ℚ)
  | failed (error : String) (method : String)
deriving DecidableEq, Repr

/-- The `success` field of a think result. -/
def ThinkResult.success : ThinkResult → Bool
  | .ok _ _ _ _ _ => true
  | .failed _ _ => false

/-- `EDUAI.think`: the five-phase pipeline.  Phases 1-3 are pure;
phase 4 dispatches generation; on failure the result dict is returned
immediately (phase 5 skipped, state untouched).  On success phase 5
records the interaction with the memory collaborator, increments
`total_interactions` and refreshes the consciousness level from the
post-recording average knowledge weight. -/
def think (cfg : EDUAIConfig) (s : EDUAIState) (stimulus : String)
    (env : ThinkEnv) : EDUAIState × ThinkResult :=
  let analysis := analyze_with_edu_consciousness s.consciousness_level stimulus
  let strategy := determine_response_strategy analysis env.memory_confidence
  match generate_intelligent_response cfg s stimulus strategy env.backend_outcome with
  | .err e m => (s, .failed e m)
  | .ok response _ =>
    let s1 : EDUAIState :=
      { s with memory_log := s.memory_log ++ [(stimulus, response)] }
    let s2 : EDUAIState :=
      { s1 with total_interactions := s1.total_interactions + 1,
                consciousness_level :=
                  update_consciousness_level s1.consciousness_level env.post_avg_weight }
    (s2, .ok response s2.consciousness_level s2.knowledge_evolution_stage
           env.memory_confidence env.knowledge_growth)

/-- One externally observable operation on an engine instance: a
`think` call (with its collaborator inputs) or a manual evolution
trigger (with the post-optimization average knowledge weight). -/
inductive Event where
  | think (stimulus : String) (env : ThinkEnv)
  | evolve (avg_knowledge_weight : ℚ)
deriving DecidableEq, Repr

/-- State transition of one event. -/
def step (cfg : EDUAIConfig) (s : EDUAIState) : Event → EDUAIState
  | .think stimulus env => (think cfg s stimulus env).1
  | .evolve w => trigger_consciousness_evolution s w

/-- Run a sequence of events on an engine instance. -/
def run (cfg : EDUAIConfig) (s : EDUAIState) (events : List Event) : EDUAIState :=
  events.foldl (step cfg) s

end EDUAI

open EDUFormula EDUAI

/-- On valid inputs, `calculate` succeeds with the clamped modulation
and the inverse-frequency scaling.  Shared unfolding lemma. -/
lemma calculate_eq_ok (A X : ℚ) (hA : 0 ≤ A) (hX : 0 < X) :
    calculate A X = .ok (min A 255 / 255 * PI, 406.4 / X) := by
  simp only [calculate, NORMALIZATION_FACTOR, SCALING_CONSTANT,
    if_neg (not_le.mpr hX), if_neg (not_lt.mpr hA)]

/-- The embedded rational value of `math.pi` is at most the real π. -/
lemma PI_le_pi : ((PI : ℚ) : ℝ) ≤ Real.pi := by
  have h := Real.pi_gt_d20
  have h2 : ((PI : ℚ) : ℝ) ≤ 3.14159265358979323846 := by
    norm_num [PI]
  linarith

/-- C1: for every amplitude `A >= 0` and frequency `X > 0`,
`calculate(A, X)` returns `modulation = (min(A, 255)/255) * pi`, which
lies in `[0, π]`, and `scaling = 406.4/X`; `calculate` errors exactly
when `X <= 0` or `A < 0`; and `calculate(300, X) = calculate(255, X)`
for every valid `X`. -/
theorem calculate_meets_contract (A X : ℚ) (hA : 0 ≤ A) (hX : 0 < X) :
    calculate A X = .ok (min A 255 / 255 * PI, 406.4 / X)
    ∧ 0 ≤ min A 255 / 255 * PI
    ∧ ((min A 255 / 255 * PI : ℚ) : ℝ) ≤ Real.pi
    ∧ (∀ B Y : ℚ, (∃ p, calculate B Y = .ok p) ↔ ¬(Y ≤ 0 ∨ B < 0))
    ∧ calculate 300 X = calculate 255 X := by
  have hmin0 : (0 : ℚ) ≤ min A 255 := le_min hA (by norm_num)
  have hmin1 : min A 255 ≤ 255 := min_le_right _ _
  have hPI0 : (0 : ℚ) ≤ PI := by norm_num [PI]
  refine ⟨calculate_eq_ok A X hA hX, ?_, ?_, ?_, ?_⟩
  · exact mul_nonneg (by positivity) hPI0
  · have h1 : (min A 255 / 255 : ℚ) ≤ 1 := by
      rw [div_le_one (by norm_num)]
      exact hmin1
    have hq : (min A 255 / 255 : ℚ) * PI ≤ PI := by
      nlinarith [hPI0, hmin0]
    calc ((min A 255 / 255 * PI : ℚ) : ℝ) ≤ ((PI : ℚ) : ℝ) := by exact_mod_cast hq
    _ ≤ Real.pi := PI_le_pi
  · intro B Y
    simp only [calculate]
    split_ifs with h1 h2
    · simp [h1]
    · simp [h2]
    · simp [h1, h2, not_or]
  · rw [calculate_eq_ok 300 X (by norm_num) hX, calculate_eq_ok 255 X (by norm_num) hX]
    norm_num

/-- C1 witness: the contract evaluated at `A = 300`, `X = 10`. -/
theorem calculate_meets_contract_witness :
    calculate 300 10 = calculate 255 10
    ∧ calculate 255 10 = .ok (PI, 1016 / 25) := by
  refine ⟨(calculate_meets_contract 300 10 (by norm_num) (by norm_num)).2.2.2.2, ?_⟩
  rw [calculate_eq_ok 255 10 (by norm_num) (by norm_num)]
  simp only [Except.ok.injEq, Prod.mk.injEq]
  constructor <;> norm_num [PI]

/-- C4: engine bootstrap determines stage and baseline level solely
from the prior interaction count via inclusive lower-bound
thresholds. -/
theorem bootstrap_stage_thresholds :
    (∀ n : ℕ,
      (n < 10 → initialize_consciousness n = ⟨1, n, .nascent, []⟩)
      ∧ (10 ≤ n → n < 100 → initialize_consciousness n = ⟨1.5, n, .developing, []⟩)
      ∧ (100 ≤ n → n < 1000 → initialize_consciousness n = ⟨2, n, .mature, []⟩)
      ∧ (1000 ≤ n → initialize_consciousness n = ⟨3, n, .transcendent, []⟩))
    ∧ (initialize_consciousness 9).knowledge_evolution_stage = .nascent
    ∧ (initialize_consciousness 10).knowledge_evolution_stage = .developing
    ∧ (initialize_consciousness 999).knowledge_evolution_stage = .mature
    ∧ (initialize_consciousness 1000).knowledge_evolution_stage = .transcendent := by
  refine ⟨fun n => ⟨?_, ?_, ?_, ?_⟩, by decide, by decide, by decide, by decide⟩
  · intro h
    simp [initialize_consciousness, h]
  · intro h1 h2
    simp [initialize_consciousness, h2, Nat.not_lt.mpr h1]
  · intro h1 h2
    have t1 : ¬ n < 10 := Nat.not_lt.mpr (le_trans (by norm_num : (10 : ℕ) ≤ 100) h1)
    have t2 : ¬ n < 100 := Nat.not_lt.mpr h1
    simp [initialize_consciousness, t1, t2, h2]
  · intro h1
    have t1 : ¬ n < 10 := Nat.not_lt.mpr (le_trans (by norm_num : (10 : ℕ) ≤ 1000) h1)
    have t2 : ¬ n < 100 := Nat.not_lt.mpr (le_trans (by norm_num : (100 : ℕ) ≤ 1000) h1)
    have t3 : ¬ n < 1000 := Nat.not_lt.mpr h1
    simp [initialize_consciousness, t1, t2, t3]

/-- C4 witness: the threshold table applied at the boundary count 10. -/
theorem bootstrap_stage_thresholds_witness :
    initialize_consciousness 10 = ⟨1.5, 10, .developing, []⟩ :=
  (bootstrap_stage_thresholds.1 10).2.1 (by norm_num) (by norm_num)

/-- Unfolding step for the band search: one entry of the ordered
table either matches its half-open range or the search continues. -/
lemma find_band_step (name : String) (lo hi f : ℚ) (rest : List (String × ℚ × ℚ)) :
    (List.find? (fun b => b.2.1 ≤ f && f < b.2.2) ((name, lo, hi) :: rest)) =
      if lo ≤ f ∧ f < hi then some (name, lo, hi)
      else List.find? (fun b => b.2.1 ≤ f && f < b.2.2) rest := by
  by_cases h : lo ≤ f ∧ f < hi
  · rw [if_pos h]
    exact List.find?_cons_of_pos _ (by simp [h.1, h.2])
  · rw [if_neg h]
    refine List.find?_cons_of_neg _ ?_
    simpa [Bool.and_eq_true, decide_eq_true_eq, not_and] using fun h1 h2 => h ⟨h1, h2⟩

/-- C10: `classify_neural_band` realizes the ordered half-open band
table, returning `unknown` when no range matches; in particular at
3.0, 10.0 and 1000.0. -/
theorem classify_band_spec :
    (∀ f : ℚ,
      classify_neural_band f =
        if 0.5 ≤ f ∧ f < 4 then "delta"
        else if 4 ≤ f ∧ f < 8 then "theta"
        else if 8 ≤ f ∧ f < 13 then "alpha"
        else if 13 ≤ f ∧ f < 30 then "beta"
        else if 30 ≤ f ∧ f < 100 then "gamma"
        else "unknown")
    ∧ classify_neural_band 3 = "delta"
    ∧ classify_neural_band 10 = "alpha"
    ∧ classify_neural_band 1000 = "unknown" := by
  have hgen : ∀ f : ℚ,
      classify_neural_band f =
        if 0.5 ≤ f ∧ f < 4 then "delta"
        else if 4 ≤ f ∧ f < 8 then "theta"
        else if 8 ≤ f ∧ f < 13 then "alpha"
        else if 13 ≤ f ∧ f < 30 then "beta"
        else if 30 ≤ f ∧ f < 100 then "gamma"
        else "unknown" := by
    intro f
    simp only [classify_neural_band, NEURAL_BANDS]
    rw [find_band_step, find_band_step, find_band_step, find_band_step,
      find_band_step, List.find?_nil]
    split_ifs <;> rfl
  refine ⟨hgen, ?_, ?_, ?_⟩
  · rw [hgen 3]; norm_num
  · rw [hgen 10]; norm_num
  · rw [hgen 1000]; norm_num

/-- On elementwise-valid pairs, the monadic traversal of `calculate`
succeeds with the pointwise closed form. -/
lemma mapM_calculate_ok (l : List (ℚ × ℚ)) (h : ∀ p ∈ l, 0 ≤ p.1 ∧ 0 < p.2) :
    l.mapM (fun p => calculate p.1 p.2) =
      .ok (l.map fun p => (min p.1 255 / 255 * PI, 406.4 / p.2)) := by
  induction l with
  | nil => rfl
  | cons a t ih =>
    have ha := h a (List.mem_cons_self a t)
    have ht := ih fun p hp => h p (List.mem_cons_of_mem a hp)
    simp only [List.mapM_cons, calculate_eq_ok a.1 a.2 ha.1 ha.2, ht, List.map_cons]
    rfl

/-- C5: on equal-length, elementwise-valid inputs `calculate_batch`
succeeds with one result per input pair in order, each equal to the
corresponding individual `calculate` result, and `calculate_numpy`
produces elementwise the same modulation and scaling values; on
mismatched lengths `calculate_batch` errors. -/
theorem batch_and_vectorized_agree (A_values X_values : List ℚ)
    (hlen : A_values.length = X_values.length)
    (hA : ∀ a ∈ A_values, 0 ≤ a) (hX : ∀ x ∈ X_values, 0 < x) :
    ∃ rs, calculate_batch A_values X_values = .ok rs
      ∧ rs.length = A_values.length
      ∧ (∀ i (hiA : i < A_values.length) (hiX : i < X_values.length) (hi : i < rs.length),
          calculate (A_values.get ⟨i, hiA⟩) (X_values.get ⟨i, hiX⟩) = .ok (rs.get ⟨i, hi⟩))
      ∧ calculate_numpy A_values X_values = .ok (rs.map Prod.fst, rs.map Prod.snd)
      ∧ (∀ B Y : List ℚ, B.length ≠ Y.length →
          calculate_batch B Y = .error "A_values and X_values must have same length") := by
  have hzip : ∀ p ∈ A_values.zip X_values, (0 : ℚ) ≤ p.1 ∧ 0 < p.2 := by
    intro p hp
    have hmem := List.of_mem_zip (show (p.1, p.2) ∈ A_values.zip X_values from by simpa using hp)
    exact ⟨hA _ hmem.1, hX _ hmem.2⟩
  refine ⟨(A_values.zip X_values).map fun p => (min p.1 255 / 255 * PI, 406.4 / p.2),
    ?_, ?_, ?_, ?_, ?_⟩
  · simp only [calculate_batch, if_neg (show ¬A_values.length ≠ X_values.length from not_not.mpr hlen)]
    exact mapM_calculate_ok _ hzip
  · simp [List.length_zip, hlen]
  · intro i hiA hiX hi
    rw [calculate_eq_ok _ _ (hA _ (A_values.get_mem _ _)) (hX _ (X_values.get_mem _ _))]
    simp only [List.get_eq_getElem, List.getElem_map, List.getElem_zip]
  · have hXany : ¬ (X_values.any fun x => x ≤ 0) = true := by
      simp only [List.any_eq_true, decide_eq_true_eq, not_exists]
      intro x
      rintro ⟨hx, hle⟩
      exact absurd hle (not_le.mpr (hX x hx))
    have hAany : ¬ (A_values.any fun a => a < 0) = true := by
      simp only [List.any_eq_true, decide_eq_true_eq, not_exists]
      intro a
      rintro ⟨ha, hlt⟩
      exact absurd hlt (not_lt.mpr (hA a ha))
    simp only [calculate_numpy, NORMALIZATION_FACTOR, SCALING_CONSTANT,
      if_neg hXany, if_neg hAany, Except.ok.injEq, Prod.mk.injEq]
    constructor
    · have h1 : ((A_values.zip X_values).map fun p => (min p.1 255 / 255 * PI, 406.4 / p.2)).map
          Prod.fst = (A_values.zip X_values).map fun p => min p.1 255 / 255 * PI := by
        rw [List.map_map]; rfl
      have h2 : (A_values.zip X_values).map (fun p => min p.1 255 / 255 * PI) =
          ((A_values.zip X_values).map Prod.fst).map fun a => min a 255 / 255 * PI := by
        rw [List.map_map]; rfl
      rw [h1, h2, List.map_fst_zip _ _ (le_of_eq hlen), List.map_map]
      refine List.map_congr_left fun a ha => ?_
      have : max a 0 = a := max_eq_left (hA a ha)
      simp [this]
    · have h1 : ((A_values.zip X_values).map fun p => (min p.1 255 / 255 * PI, 406.4 / p.2)).map
          Prod.snd = (A_values.zip X_values).map fun p => 406.4 / p.2 := by
        rw [List.map_map]; rfl
      have h2 : (A_values.zip X_values).map (fun p => 406.4 / p.2) =
          ((A_values.zip X_values).map Prod.snd).map fun x => 406.4 / x := by
        rw [List.map_map]; rfl
      rw [h1, h2, List.map_snd_zip _ _ (ge_of_eq hlen)]
  · intro B Y h
    simp [calculate_batch, h]

/-- C5 witness: the batch contract evaluated on the spec example
`[(255, 10), (0, 1)]`. -/
theorem batch_and_vectorized_agree_witness :
    ∃ rs, calculate_batch [255, 0] [10, 1] = .ok rs ∧ rs.length = 2 := by
  obtain ⟨rs, h1, h2, _⟩ := batch_and_vectorized_agree [255, 0] [10, 1] rfl
    (by intro a ha; simp [List.mem_cons] at ha; rcases ha with rfl | rfl <;> norm_num)
    (by intro x hx; simp [List.mem_cons] at hx; rcases hx with rfl | rfl <;> norm_num)
  exact ⟨rs, h1, h2.trans rfl⟩

/-- C9: the strategy step is the deterministic pipeline: fixed base
bundle, per-mode overrides, then the creativity multipliers on
temperature and creativity boost, then the confidence multiplier on
depth, in that order; each final field has the stated closed form. -/
theorem strategy_pipeline_spec (a : Analysis) (conf : ℚ) :
    (determine_response_strategy a conf).max_tokens =
      (match a.cognitive_mode with
       | .DEEP_CONTEMPLATION => 1024
       | .ANALYTICAL_THINKING => 512
       | .INTUITIVE_RESPONSE => 256)
    ∧ (determine_response_strategy a conf).top_k =
      (match a.cognitive_mode with
       | .DEEP_CONTEMPLATION => 50
       | .ANALYTICAL_THINKING => 35
       | .INTUITIVE_RESPONSE => 30)
    ∧ (determine_response_strategy a conf).top_p =
      (match a.cognitive_mode with
       | .DEEP_CONTEMPLATION => 0.98
       | .ANALYTICAL_THINKING => 0.95
       | .INTUITIVE_RESPONSE => 0.9)
    ∧ (determine_response_strategy a conf).temperature =
      (match a.cognitive_mode with
       | .DEEP_CONTEMPLATION => 0.9
       | .ANALYTICAL_THINKING => 0.7
       | .INTUITIVE_RESPONSE => 0.6) *
        (if a.creativity_requirement > 0.5 then 1 + a.creativity_requirement * 0.3 else 1)
    ∧ (determine_response_strategy a conf).creativity_boost =
      (match a.cognitive_mode with
       | .DEEP_CONTEMPLATION => 1.5
       | .ANALYTICAL_THINKING => 1.2
       | .INTUITIVE_RESPONSE => 0.8) *
        (if a.creativity_requirement > 0.5 then 1 + a.creativity_requirement * 0.5 else 1)
    ∧ (determine_response_strategy a conf).depth_multiplier =
      (match a.cognitive_mode with
       | .DEEP_CONTEMPLATION => 2
       | .ANALYTICAL_THINKING => 1.5
       | .INTUITIVE_RESPONSE => 0.8) *
        (if conf > 0.7 then 1.3 else 1) := by
  cases hm : a.cognitive_mode <;>
    simp only [determine_response_strategy, hm, base_strategy] <;>
    split_ifs <;>
    refine ⟨?_, ?_, ?_, ?_, ?_, ?_⟩ <;>
    norm_num

/-- C8: the analyze step computes `amplitude = min(length, 255)`,
`frequency = max(distinct lowercased words, 1)`, the combined factor
`modulation * scaling * experienceLevel`, the cognitive mode by the
fixed thresholds 100 and 30 on the combined factor, and the
processing depth against the threshold `50 * experienceLevel` at
multipliers 2, 1 and 0.5. -/
theorem analysis_classification_spec (level : ℚ) (stimulus : String) :
    (analyze_with_edu_consciousness level stimulus).edu_consciousness_factor =
      ((min stimulus.length 255 : ℕ) : ℚ) / 255 * PI *
        (406.4 / ((max (unique_concepts stimulus) 1 : ℕ) : ℚ)) * level
    ∧ (analyze_with_edu_consciousness level stimulus).cognitive_mode =
      (if 100 < (analyze_with_edu_consciousness level stimulus).edu_consciousness_factor then
        CognitiveMode.DEEP_CONTEMPLATION
       else if 30 < (analyze_with_edu_consciousness level stimulus).edu_consciousness_factor then
        CognitiveMode.ANALYTICAL_THINKING
       else CognitiveMode.INTUITIVE_RESPONSE)
    ∧ (analyze_with_edu_consciousness level stimulus).processing_depth =
      (if 2 * (50 * level) < (analyze_with_edu_consciousness level stimulus).edu_consciousness_factor then
        Depth.TRANSCENDENT
       else if 50 * level < (analyze_with_edu_consciousness level stimulus).edu_consciousness_factor then
        Depth.DEEP
       else if 0.5 * (50 * level) < (analyze_with_edu_consciousness level stimulus).edu_consciousness_factor then
        Depth.MODERATE
       else Depth.SURFACE) := by
  have hA : (0 : ℚ) ≤ ((min stimulus.length 255 : ℕ) : ℚ) := Nat.cast_nonneg _
  have hX1 : 1 ≤ max (unique_concepts stimulus) 1 := Nat.le_max_right _ _
  have hX : (0 : ℚ) < ((max (unique_concepts stimulus) 1 : ℕ) : ℚ) := by
    exact_mod_cast Nat.lt_of_lt_of_le Nat.zero_lt_one hX1
  have hcalc := calculate_eq_ok _ _ hA hX
  have hclamp : min ((min stimulus.length 255 : ℕ) : ℚ) 255 =
      ((min stimulus.length 255 : ℕ) : ℚ) :=
    min_eq_left (by exact_mod_cast min_le_right stimulus.length 255)
  simp only [analyze_with_edu_consciousness, hcalc, Except.toOption, Option.getD, hclamp,
    calculate_processing_depth, mul_comm (50 * level) 2, mul_comm (50 * level) 0.5,
    gt_iff_lt]
  trivial

/-- The consciousness-level update never decreases the level. -/
lemma update_consciousness_level_ge (level w : ℚ) :
    level ≤ update_consciousness_level level w :=
  le_max_right _ _

/-- The manual evolution trigger never decreases the level and never
regresses the stage. -/
lemma trigger_mono (s : EDUAIState) (w : ℚ) :
    s.consciousness_level ≤ (trigger_consciousness_evolution s w).consciousness_level
    ∧ s.knowledge_evolution_stage.idx ≤
        (trigger_consciousness_evolution s w).knowledge_evolution_stage.idx := by
  have hu := update_consciousness_level_ge s.consciousness_level w
  unfold trigger_consciousness_evolution
  split_ifs with h1 h2 h3
  · refine ⟨by simp; linarith, ?_⟩
    cases s.knowledge_evolution_stage <;> simp [Stage.idx]
  · refine ⟨by simp; linarith, ?_⟩
    rw [h2.2]
    simp [Stage.idx]
  · refine ⟨by simp; linarith, ?_⟩
    rw [h3.2]
    simp [Stage.idx]
  · exact ⟨by simpa using hu, le_refl _⟩

/-- A `think` call either leaves the state untouched (failed dispatch)
or performs exactly the phase-5 update. -/
lemma think_state (cfg : EDUAIConfig) (s : EDUAIState) (stimulus : String) (env : ThinkEnv) :
    (think cfg s stimulus env).1 = s ∨
    ∃ response, (think cfg s stimulus env).1 =
      { s with memory_log := s.memory_log ++ [(stimulus, response)],
               total_interactions := s.total_interactions + 1,
               consciousness_level :=
                 update_consciousness_level s.consciousness_level env.post_avg_weight } := by
  simp only [think]
  rcases hgen : generate_intelligent_response cfg s stimulus
      (determine_response_strategy (analyze_with_edu_consciousness s.consciousness_level stimulus)
        env.memory_confidence) env.backend_outcome with ⟨resp, m⟩ | ⟨e, m⟩
  · right
    exact ⟨resp, rfl⟩
  · left
    rfl

/-- One event never decreases the level or regresses the stage. -/
lemma step_mono (cfg : EDUAIConfig) (s : EDUAIState) (e : Event) :
    s.consciousness_level ≤ (step cfg s e).consciousness_level
    ∧ s.knowledge_evolution_stage.idx ≤ (step cfg s e).knowledge_evolution_stage.idx := by
  cases e with
  | think stim env =>
    show s.consciousness_level ≤ (think cfg s stim env).1.consciousness_level
      ∧ s.knowledge_evolution_stage.idx ≤ (think cfg s stim env).1.knowledge_evolution_stage.idx
    obtain h | ⟨r, h⟩ := think_state cfg s stim env
    · rw [h]
      exact ⟨le_refl _, le_refl _⟩
    · rw [h]
      exact ⟨update_consciousness_level_ge _ _, le_refl _⟩
  | evolve w => exact trigger_mono s w

/-- C2: across any sequence of `think` calls and manual evolution
triggers on one engine instance, the experience level is
non-decreasing and the stage never regresses in the order
nascent < developing < mature < transcendent. -/
theorem experience_level_and_stage_monotone (cfg : EDUAIConfig) (s : EDUAIState)
    (events : List Event) :
    s.consciousness_level ≤ (run cfg s events).consciousness_level
    ∧ s.knowledge_evolution_stage.idx ≤
        (run cfg s events).knowledge_evolution_stage.idx := by
  induction events generalizing s with
  | nil => exact ⟨le_refl _, le_refl _⟩
  | cons e t ih =>
    have h1 := step_mono cfg s e
    have h2 := ih (step cfg s e)
    exact ⟨h1.1.trans h2.1, h1.2.trans h2.2⟩

/-- An engine constructed without any backend path. -/
def cfgNone : EDUAIConfig := ⟨none, false⟩

/-- Collaborator inputs for a neutral interaction: zero confidence,
average knowledge weight 1, no growth. -/
def env0 : ThinkEnv := ⟨0, .timedOut, 1, 0⟩

/-- A backendless `think` call with neutral collaborator inputs keeps
the level (when at least 1) and the stage, and increments the
interaction count. -/
lemma think_pure_fields (s : EDUAIState) (h : 1 ≤ s.consciousness_level) (stim : String) :
    (think cfgNone s stim env0).1.consciousness_level = s.consciousness_level
    ∧ (think cfgNone s stim env0).1.total_interactions = s.total_interactions + 1
    ∧ (think cfgNone s stim env0).1.knowledge_evolution_stage = s.knowledge_evolution_stage := by
  have hsucc : ∀ strat, generate_intelligent_response cfgNone s stim strat env0.backend_outcome =
      generate_pure_edu_response s stim strat := by
    intro strat
    simp [generate_intelligent_response, backend_configured, cfgNone]
  have e1 : (1 + ((1 : ℚ) - 1) * 0.5) = 1 := by norm_num
  have hupd : update_consciousness_level s.consciousness_level env0.post_avg_weight =
      s.consciousness_level := by
    rw [show env0.post_avg_weight = (1 : ℚ) from rfl, update_consciousness_level, e1]
    exact max_eq_right h
  simp only [think, hsucc, generate_pure_edu_response]
  refine ⟨?_, ?_, ?_⟩ <;> first | exact hupd | rfl | trivial

/-- Iterating backendless neutral `think` calls: the level and stage
are preserved while the interaction count advances by the number of
calls. -/
lemma run_pure_fields (n : ℕ) : ∀ s : EDUAIState, 1 ≤ s.consciousness_level →
    (run cfgNone s (List.replicate n (Event.think "hello" env0))).consciousness_level =
      s.consciousness_level
    ∧ (run cfgNone s (List.replicate n (Event.think "hello" env0))).total_interactions =
      s.total_interactions + n
    ∧ (run cfgNone s (List.replicate n (Event.think "hello" env0))).knowledge_evolution_stage =
      s.knowledge_evolution_stage := by
  induction n with
  | zero =>
    intro s h
    exact ⟨rfl, rfl, rfl⟩
  | succ k ih =>
    intro s h
    rw [List.replicate_succ]
    have hstep := think_pure_fields s h "hello"
    have hrw : run cfgNone s (Event.think "hello" env0 :: List.replicate k (Event.think "hello" env0)) =
        run cfgNone (think cfgNone s "hello" env0).1 (List.replicate k (Event.think "hello" env0)) := rfl
    have ih' := ih (think cfgNone s "hello" env0).1 (by rw [hstep.1]; exact h)
    rw [hrw]
    refine ⟨?_, ?_, ?_⟩
    · rw [ih'.1, hstep.1]
    · rw [ih'.2.1, hstep.2.1]
      omega
    · rw [ih'.2.2, hstep.2.2]

/-- The engine state reached by bootstrapping with 99 prior
interactions and completing 901 backendless neutral `think` calls:
1000 total interactions while still in the `developing` stage. -/
def sDev : EDUAIState :=
  run cfgNone (initialize_consciousness 99) (List.replicate 901 (Event.think "hello" env0))

/-- C3 counterexample: from the reachable state `sDev` (stage
`developing`, 1000 interactions), one manual evolution trigger jumps
directly to `transcendent`, advancing the stage by two steps, not at
most one. -/
theorem evolution_trigger_skips_stages :
    sDev.knowledge_evolution_stage = Stage.developing
    ∧ sDev.total_interactions = 1000
    ∧ (trigger_consciousness_evolution sDev 1).knowledge_evolution_stage = Stage.transcendent
    ∧ (trigger_consciousness_evolution sDev 1).knowledge_evolution_stage.idx =
        sDev.knowledge_evolution_stage.idx + 2 := by
  have hinit : initialize_consciousness 99 = ⟨1.5, 99, .developing, []⟩ := by
    norm_num [initialize_consciousness]
  have h1 : (1 : ℚ) ≤ (initialize_consciousness 99).consciousness_level := by
    rw [hinit]
    norm_num
  have hrun := run_pure_fields 901 (initialize_consciousness 99) h1
  have hstage : sDev.knowledge_evolution_stage = Stage.developing := by
    show (run cfgNone (initialize_consciousness 99)
      (List.replicate 901 (Event.think "hello" env0))).knowledge_evolution_stage = _
    rw [hrun.2.2, hinit]
  have hcount : sDev.total_interactions = 1000 := by
    show (run cfgNone (initialize_consciousness 99)
      (List.replicate 901 (Event.think "hello" env0))).total_interactions = _
    rw [hrun.2.1, hinit]
  have htrig : (trigger_consciousness_evolution sDev 1).knowledge_evolution_stage =
      Stage.transcendent := by
    rw [trigger_consciousness_evolution,
      if_pos (by rw [hcount, hstage]; exact ⟨le_refl _, by decide⟩)]
  refine ⟨hstage, hcount, htrig, ?_⟩
  rw [htrig, hstage]
  rfl

/-- C3 amended: the trigger never regresses stage or level and leaves
the interaction count and memory log unchanged; with interactionCount
at least 1000 it advances any non-transcendent stage directly to
transcendent (possibly skipping stages) adding +0.5 on top of the
refreshed level; otherwise developing advances to mature at 100+
adding +0.3; otherwise nascent advances to developing at 10+ adding
+0.2; otherwise the stage is unchanged. -/
theorem evolution_trigger_branch_spec (s : EDUAIState) (w : ℚ) :
    (trigger_consciousness_evolution s w).total_interactions = s.total_interactions
    ∧ (trigger_consciousness_evolution s w).memory_log = s.memory_log
    ∧ s.consciousness_level ≤ (trigger_consciousness_evolution s w).consciousness_level
    ∧ s.knowledge_evolution_stage.idx ≤
        (trigger_consciousness_evolution s w).knowledge_evolution_stage.idx
    ∧ (1000 ≤ s.total_interactions ∧ s.knowledge_evolution_stage ≠ .transcendent →
        (trigger_consciousness_evolution s w).knowledge_evolution_stage = .transcendent
        ∧ (trigger_consciousness_evolution s w).consciousness_level =
            update_consciousness_level s.consciousness_level w + 0.5)
    ∧ (¬(1000 ≤ s.total_interactions ∧ s.knowledge_evolution_stage ≠ .transcendent) →
        100 ≤ s.total_interactions → s.knowledge_evolution_stage = .developing →
        (trigger_consciousness_evolution s w).knowledge_evolution_stage = .mature
        ∧ (trigger_consciousness_evolution s w).consciousness_level =
            update_consciousness_level s.consciousness_level w + 0.3)
    ∧ (¬(1000 ≤ s.total_interactions ∧ s.knowledge_evolution_stage ≠ .transcendent) →
        10 ≤ s.total_interactions → s.knowledge_evolution_stage = .nascent →
        (trigger_consciousness_evolution s w).knowledge_evolution_stage = .developing
        ∧ (trigger_consciousness_evolution s w).consciousness_level =
            update_consciousness_level s.consciousness_level w + 0.2)
    ∧ (¬(1000 ≤ s.total_interactions ∧ s.knowledge_evolution_stage ≠ .transcendent) →
        ¬(100 ≤ s.total_interactions ∧ s.knowledge_evolution_stage = .developing) →
        ¬(10 ≤ s.total_interactions ∧ s.knowledge_evolution_stage = .nascent) →
        (trigger_consciousness_evolution s w).knowledge_evolution_stage =
          s.knowledge_evolution_stage
        ∧ (trigger_consciousness_evolution s w).consciousness_level =
            update_consciousness_level s.consciousness_level w) := by
  have hmono := trigger_mono s w
  refine ⟨?_, ?_, hmono.1, hmono.2, ?_, ?_, ?_, ?_⟩
  · unfold trigger_consciousness_evolution
    split_ifs <;> rfl
  · unfold trigger_consciousness_evolution
    split_ifs <;> rfl
  · intro h1
    rw [trigger_consciousness_evolution, if_pos h1]
    exact ⟨rfl, rfl⟩
  · intro h1 h2 h3
    rw [trigger_consciousness_evolution, if_neg h1, if_pos ⟨h2, h3⟩]
    exact ⟨rfl, rfl⟩
  · intro h1 h2 h3
    have hnd : ¬(100 ≤ s.total_interactions ∧ s.knowledge_evolution_stage = .developing) := by
      rintro ⟨_, hd⟩
      rw [h3] at hd
      exact absurd hd (by decide)
    rw [trigger_consciousness_evolution, if_neg h1, if_neg hnd, if_pos ⟨h2, h3⟩]
    exact ⟨rfl, rfl⟩
  · intro h1 h2 h3
    rw [trigger_consciousness_evolution, if_neg h1, if_neg h2, if_neg h3]
    exact ⟨rfl, rfl⟩

/-- C3 amended witness: the nascent-to-developing branch evaluated at
a concrete state with 10 interactions and weight 1. -/
theorem evolution_trigger_branch_spec_witness :
    (trigger_consciousness_evolution ⟨1, 10, Stage.nascent, []⟩ 1).knowledge_evolution_stage =
      Stage.developing
    ∧ (trigger_consciousness_evolution ⟨1, 10, Stage.nascent, []⟩ 1).consciousness_level = 1.2 := by
  have h := evolution_trigger_branch_spec ⟨1, 10, Stage.nascent, []⟩ 1
  have hb := h.2.2.2.2.2.2.1
    (by rintro ⟨hc, _⟩; exact absurd hc (by norm_num))
    (by norm_num) rfl
  refine ⟨hb.1, ?_⟩
  rw [hb.2, update_consciousness_level]
  norm_num

/-- C6: when the backend dispatch path fails (nonzero exit code or
timeout), `think` reports failure and leaves the session state
unchanged: the interaction count is not incremented, the level is not
updated, and no interaction is recorded with the memory
collaborator. -/
theorem backend_failure_preserves_state (cfg : EDUAIConfig) (s : EDUAIState)
    (stimulus : String) (env : ThinkEnv)
    (hcfg : (backend_configured cfg && cfg.backend_path_exists) = true)
    (hfail : env.backend_outcome = .timedOut ∨
      ∃ c out errS, env.backend_outcome = .exited c out errS ∧ c ≠ 0) :
    (think cfg s stimulus env).1 = s
    ∧ (think cfg s stimulus env).2.success = false
    ∧ (think cfg s stimulus env).1.total_interactions = s.total_interactions
    ∧ (think cfg s stimulus env).1.consciousness_level = s.consciousness_level
    ∧ (think cfg s stimulus env).1.memory_log = s.memory_log := by
  have hdisp : ∀ strat outc, generate_intelligent_response cfg s stimulus strat outc =
      generate_with_backend s stimulus strat outc := by
    intro strat outc
    simp [generate_intelligent_response, hcfg]
  have hkey : (think cfg s stimulus env).1 = s
      ∧ (think cfg s stimulus env).2.success = false := by
    rcases hfail with hout | ⟨c, out, errS, hout, hc⟩
    · simp [think, hdisp, hout, generate_with_backend, ThinkResult.success]
    · simp [think, hdisp, hout, generate_with_backend, hc, ThinkResult.success]
  exact ⟨hkey.1, hkey.2, by rw [hkey.1], by rw [hkey.1], by rw [hkey.1]⟩

/-- A configured backend path whose model file exists. -/
def cfgBackend : EDUAIConfig := ⟨some "/models/qwen.gguf", true⟩

/-- C6 witness: a timed-out backend call on a concrete engine leaves
the bootstrap state untouched and reports failure. -/
theorem backend_failure_preserves_state_witness :
    (think cfgBackend (initialize_consciousness 0) "hello" ⟨0, .timedOut, 1, 0⟩).1 =
      initialize_consciousness 0
    ∧ (think cfgBackend (initialize_consciousness 0) "hello" ⟨0, .timedOut, 1, 0⟩).2.success =
      false := by
  have h := backend_failure_preserves_state cfgBackend (initialize_consciousness 0) "hello"
    ⟨0, .timedOut, 1, 0⟩ (by decide) (Or.inl rfl)
  exact ⟨h.1, h.2.1⟩

/-- A configured backend path whose model file does not exist. -/
def cfgGhost : EDUAIConfig := ⟨some "/models/qwen.gguf", false⟩

/-- C7 counterexample: with a backend configured but its file missing,
dispatch silently uses the templated fallback path (method
`pure_edu_consciousness`) and the `think` call succeeds without any
backend failure report. -/
theorem configured_backend_uses_fallback :
    backend_configured cfgGhost = true
    ∧ (generate_intelligent_response cfgGhost (initialize_consciousness 0) "hello"
        base_strategy BackendOutcome.timedOut).method = "pure_edu_consciousness"
    ∧ (generate_intelligent_response cfgGhost (initialize_consciousness 0) "hello"
        base_strategy BackendOutcome.timedOut).success = true
    ∧ (think cfgGhost (initialize_consciousness 0) "hello" ⟨0, .timedOut, 1, 0⟩).2.success =
      true := by
  refine ⟨by decide, ?_, ?_, ?_⟩
  · simp [generate_intelligent_response, backend_configured, cfgGhost,
      generate_pure_edu_response, GenResult.method]
  · simp [generate_intelligent_response, backend_configured, cfgGhost,
      generate_pure_edu_response, GenResult.success]
  · simp [think, generate_intelligent_response, backend_configured, cfgGhost,
      generate_pure_edu_response, ThinkResult.success]

/-- C7 amended: dispatch uses the backend exactly when a backend path
is configured and its file exists; in that case the call result is a
backend failure exactly on nonzero exit or timeout.  When no backend
is configured or the configured path does not exist, dispatch uses
the templated fallback, which always succeeds, and every `think` call
succeeds. -/
theorem dispatch_path_spec (cfg : EDUAIConfig) (s : EDUAIState) (stimulus : String)
    (strategy : ResponseStrategy) (outcome : BackendOutcome) :
    ((backend_configured cfg && cfg.backend_path_exists) = true →
      generate_intelligent_response cfg s stimulus strategy outcome =
        generate_with_backend s stimulus strategy outcome
      ∧ (generate_intelligent_response cfg s stimulus strategy outcome).method =
          "backend_enhanced"
      ∧ ((generate_intelligent_response cfg s stimulus strategy outcome).success = false ↔
          outcome = .timedOut ∨ ∃ c out errS, outcome = .exited c out errS ∧ c ≠ 0))
    ∧ ((backend_configured cfg && cfg.backend_path_exists) = false →
      generate_intelligent_response cfg s stimulus strategy outcome =
        generate_pure_edu_response s stimulus strategy
      ∧ (generate_intelligent_response cfg s stimulus strategy outcome).method =
          "pure_edu_consciousness"
      ∧ (generate_intelligent_response cfg s stimulus strategy outcome).success = true
      ∧ ∀ env : ThinkEnv, (think cfg s stimulus env).2.success = true) := by
  constructor
  · intro hcfg
    have hd : generate_intelligent_response cfg s stimulus strategy outcome =
        generate_with_backend s stimulus strategy outcome := by
      simp [generate_intelligent_response, hcfg]
    refine ⟨hd, ?_, ?_⟩
    · rw [hd]
      cases outcome with
      | exited c out errS =>
        by_cases hc : c = 0 <;> simp [generate_with_backend, hc, GenResult.method]
      | timedOut => simp [generate_with_backend, GenResult.method]
    · rw [hd]
      cases outcome with
      | exited c out errS =>
        by_cases hc : c = 0
        · subst hc
          simp [generate_with_backend, GenResult.success]
        · simp [generate_with_backend, hc, GenResult.success]
      | timedOut => simp [generate_with_backend, GenResult.success]
  · intro hcfg
    have hd : ∀ strat outc, generate_intelligent_response cfg s stimulus strat outc =
        generate_pure_edu_response s stimulus strat := by
      intro strat outc
      simp [generate_intelligent_response, hcfg]
    refine ⟨hd strategy outcome, ?_, ?_, ?_⟩
    · rw [hd strategy outcome]
      simp [generate_pure_edu_response, GenResult.method]
    · rw [hd strategy outcome]
      simp [generate_pure_edu_response, GenResult.success]
    · intro env
      simp [think, hd, generate_pure_edu_response, ThinkResult.success]

/-- C7 amended witness: the two dispatch branches evaluated at
concrete configurations. -/
theorem dispatch_path_spec_witness :
    (generate_intelligent_response cfgBackend (initialize_consciousness 0) "hello"
      base_strategy BackendOutcome.timedOut).method = "backend_enhanced"
    ∧ (generate_intelligent_response cfgGhost (initialize_consciousness 0) "hello"
      base_strategy BackendOutcome.timedOut).method = "pure_edu_consciousness" := by
  constructor
  · exact ((dispatch_path_spec cfgBackend (initialize_consciousness 0) "hello"
      base_strategy BackendOutcome.timedOut).1 (by decide)).2.1
  · exact ((dispatch_path_spec cfgGhost (initialize_consciousness 0) "hello"
      base_strategy BackendOutcome.timedOut).2 (by decide)).2.1
